import Mathlib

/-!
Verification of the godel_api repository: a shallow embedding of the
window-lifecycle layer (`godel_core.py`), the SQLite storage layer (`db.py`),
the chat monitor (`commands/chat_monitor_v2.py`), the probe command
(`commands/probe_command.py`), the multi-session chat runner
(`working_multichat.py`) and the public API wrapper (`godel_api.py`),
together with theorems settling the frozen claims about them.

Python objects are embedded as Lean structures; stateful methods become
functions from state to (result, state); browser/DOM interactions that the
code only observes (Selenium calls, page polls) are embedded as explicit
oracle inputs: a polling loop takes the list of successive DOM snapshots it
would observe, one per iteration, the timeout bounding the number of
iterations, and a raised exception is an `Except.error` value.
-/

namespace GodelCore

/-- A floating terminal window element as seen in the DOM; the only attribute
the code reads from it is its `id`. -/
structure WindowElem where
  id : String
deriving DecidableEq, Repr

/-- State of `DOMMonitor` (godel_core.py): the set of window ids already
tracked, embedded as a list. -/
structure DOMMonitor where
  tracked_windows : List String
deriving DecidableEq, Repr

/-- `DOMMonitor.get_current_windows` returns the window elements currently in
the DOM, or the empty list if the query raises; in the embedding a DOM
snapshot already is that resulting list. -/
def get_current_windows (snapshot : List WindowElem) : List WindowElem :=
  snapshot

/-- `DOMMonitor.get_new_window` (godel_core.py lines 36-54): poll the DOM until
the timeout; on each iteration, if the current window count exceeds
`previous_count` and the last window id is not yet tracked, track it and
return that window; otherwise sleep and poll again; `none` on timeout.
`polls` is the list of DOM snapshots observed on successive iterations, the
timeout bounding its length. Returns the result together with the updated
monitor state. -/
def get_new_window (m : DOMMonitor) (previous_count : Nat) :
    List (List WindowElem) → Option WindowElem × DOMMonitor
  | [] => (none, m)
  | snapshot :: rest =>
      let current_windows := get_current_windows snapshot
      if current_windows.length > previous_count then
        match current_windows.getLast? with
        | some new_window =>
            if new_window.id ∈ m.tracked_windows then
              get_new_window m previous_count rest
            else
              (some new_window, ⟨new_window.id :: m.tracked_windows⟩)
        | none => get_new_window m previous_count rest
      else
        get_new_window m previous_count rest

/-- The polling loop inside `WebDriverWait(driver, timeout).until(cond)`:
check the condition once per tick starting at tick `t`; return true at the
first tick where it holds; when the fuel (the number of ticks the timeout
admits) runs out, the wait raises TimeoutException, embedded as `false`. -/
def until_loop (cond : Nat → Bool) (t : Nat) : Nat → Bool
  | 0 => false
  | fuel + 1 => if cond t then true else until_loop cond (t + 1) fuel

/-- `DOMMonitor.wait_for_loading` (godel_core.py lines 56-67): brief fixed
sleep, then `WebDriverWait(...).until(invisibility_of_element_located(...))`
for the spinner selector; returns true on success and false when the wait
times out (the TimeoutException is caught). `spinner_visible t` is the
visibility of the loading spinner at poll tick `t`; a timeout of `timeout`
admits ticks `0..timeout`. -/
def wait_for_loading (spinner_visible : Nat → Bool) (timeout : Nat) : Bool :=
  until_loop (fun t => !spinner_visible t) 0 (timeout + 1)

/-- The result dict built by `BaseCommand.execute`: the keys the method can
set on its result. -/
structure CommandResult where
  success : Bool
  error : Option String
  command : String
  window_id : Option String
  data : Option (List (String × String))
deriving DecidableEq, Repr

/-- Browser-side behavior observed during one `BaseCommand.execute` run: the
command string produced by `get_command_string`, the DOM snapshot taken
before sending, the outcome of `controller.send_command`, the snapshots
polled while waiting for the new window (the 10 second timeout bounds how
many there are), the spinner visibility trace seen by `wait_for_loading`,
and the outcome of `extract_data` (a raised exception is `Except.error` of
its message). -/
structure ExecEnv where
  command_str : String
  initial_snapshot : List WindowElem
  send_ok : Bool
  polls : List (List WindowElem)
  spinner_visible : Nat → Bool
  extracted : Except String (List (String × String))

/-- `BaseCommand.execute` (godel_core.py lines 91-148): snapshot the window
count, send the command, wait up to 10 s for a new window, wait up to 30 s
for loading to finish, then extract data, catching extraction exceptions;
each failed stage returns a `success := false` dict naming the stage.
Returns the result dict together with the updated monitor state. -/
def BaseCommand_execute (m : DOMMonitor) (env : ExecEnv) :
    CommandResult × DOMMonitor :=
  let command_str := env.command_str
  let previous_count := (get_current_windows env.initial_snapshot).length
  if env.send_ok = false then
    ({ success := false, error := some "Failed to send command",
       command := command_str, window_id := none, data := none }, m)
  else
    match get_new_window m previous_count env.polls with
    | (none, m') =>
        ({ success := false, error := some "No new window created",
           command := command_str, window_id := none, data := none }, m')
    | (some w, m') =>
        let window_id := w.id
        if wait_for_loading env.spinner_visible 30 = false then
          ({ success := false, error := some "Loading timeout",
             command := command_str, window_id := some window_id,
             data := none }, m')
        else
          match env.extracted with
          | Except.ok d =>
              ({ success := true, error := none, command := command_str,
                 window_id := some window_id, data := some d }, m')
          | Except.error e =>
              ({ success := false,
                 error := some ("Data extraction failed: " ++ e),
                 command := command_str, window_id := some window_id,
                 data := none }, m')

/-- What one round of the outer try block in `BaseCommand.close` does, as
observed from the browser: either every strategy ran (strategy `i` clicked a
close element, `strat i = true`, or raised NoSuchElementException and fell
through, `strat i = false`), or a StaleElementReferenceException escaped to
the outer handler (`refresh_found` telling whether the stale window
reference could be refreshed from the current DOM), or some other exception
escaped. -/
inductive CloseOutcome where
  | ran (strat : Fin 5 → Bool)
  | stale (refresh_found : Bool)
  | failure
deriving DecidableEq

/-- `BaseCommand.close` (godel_core.py lines 150-265): give up after more
than 2 retries, give up when there is no window, otherwise try the five
close strategies in order, returning true at the first that clicks; a stale
window reference is refreshed and the close retried with `retry_count + 1`;
any other exception, or no close button found, returns false. `env r` is
what the browser does on the round entered with `retry_count = r`. -/
def close (window_present : Bool) (env : Nat → CloseOutcome)
    (retry_count : Nat) : Bool :=
  if _h : retry_count > 2 then false
  else if window_present = false then false
  else
    match env retry_count with
    | CloseOutcome.ran strat =>
        if strat 0 then true
        else if strat 1 then true
        else if strat 2 then true
        else if strat 3 then true
        else if strat 4 then true
        else false
    | CloseOutcome.stale refresh_found =>
        if refresh_found then close window_present env (retry_count + 1)
        else false
    | CloseOutcome.failure => false
termination_by 3 - retry_count
decreasing_by omega

/-- The `ticker` argument of `GodelTerminalController.execute_command`: the
Python parameter may be `None`, a single ticker string, or a list of
tickers. -/
inductive TickerArg where
  | noneArg
  | single (t : String)
  | list (ts : List String)
deriving DecidableEq, Repr

/-- The PRT branch of `execute_command` normalizes its ticker argument:
`ticker if isinstance(ticker, list) else [ticker] if ticker else []`. -/
def prt_ticker_list : TickerArg → List String
  | TickerArg.list ts => ts
  | TickerArg.single t => [t]
  | TickerArg.noneArg => []

/-- A command instance as created by `execute_command` and tracked in
`active_commands`: its registered type and the arguments it was constructed
with (PRT receives the ticker list in its constructor) or executed on
(standard commands receive ticker and asset class in `execute`). -/
structure CommandInstance where
  command_type : String
  prt_tickers : Option (List String)
  exec_ticker : Option TickerArg
  exec_asset_class : Option String
deriving DecidableEq, Repr

/-- The slice of the result dict of a command execution that
`execute_command` inspects and returns. -/
structure ExecuteCommandResult where
  success : Bool
  error : Option String
  available_commands : Option (List String)
deriving DecidableEq, Repr

/-- State of `GodelTerminalController` relevant to command tracking: the
registered command type names and the list of active command instances. -/
structure Controller where
  command_registry : List String
  active_commands : List CommandInstance
deriving DecidableEq, Repr

/-- `GodelTerminalController.execute_command` (godel_core.py lines 533-568):
reject unknown command types, otherwise create the command instance (the
PRT branch normalizes the ticker list), run it (`run` is the browser-side
outcome of `command.execute`), and append the instance to `active_commands`
exactly on success, returning it alongside the result; on failure the
instance is dropped and `none` is returned. -/
def execute_command (c : Controller)
    (run : CommandInstance → ExecuteCommandResult) (command_type : String)
    (ticker : TickerArg) (asset_class : String) :
    (ExecuteCommandResult × Option CommandInstance) × Controller :=
  if c.command_registry.contains command_type = false then
    (({ success := false,
        error := some ("Unknown command type: " ++ command_type),
        available_commands := some c.command_registry }, none), c)
  else
    let command : CommandInstance :=
      if command_type = "PRT" then
        { command_type := command_type,
          prt_tickers := some (prt_ticker_list ticker),
          exec_ticker := none, exec_asset_class := none }
      else
        { command_type := command_type, prt_tickers := none,
          exec_ticker := some ticker, exec_asset_class := some asset_class }
    let result := run command
    if result.success then
      ((result, some command),
        { c with active_commands := c.active_commands ++ [command] })
    else
      ((result, none), c)

end GodelCore

namespace Db

/-- A row of the `chat_messages` table (db.py SCHEMA_SQL lines 68-76): rowid,
the saved columns, and the timestamp. Timestamps are embedded as naturals;
the code stores ISO-format strings, on which the SQL comparison and ordering
agree with the numeric order of the instants they denote. -/
structure ChatRow where
  id : Nat
  channel : String
  sender : String
  content : String
  timestamp : Nat
  raw_data : Option String
deriving DecidableEq, Repr

/-- A row of the `pdf_downloads` table (db.py SCHEMA_SQL lines 78-85). -/
structure PdfRow where
  id : Nat
  ticker : String
  command : String
  filename : String
  filepath : String
  timestamp : Nat
deriving DecidableEq, Repr

/-- State of `SQLiteBackend`: the two tables, each in rowid (insertion)
order. Neither table carries a UNIQUE constraint in SCHEMA_SQL. -/
structure SQLiteBackend where
  chat_messages : List ChatRow
  pdf_downloads : List PdfRow
deriving DecidableEq, Repr

/-- The freshly initialised database: both tables empty. -/
def emptyBackend : SQLiteBackend :=
  { chat_messages := [], pdf_downloads := [] }

/-- `SQLiteBackend.save_message` (db.py lines 114-123): `INSERT INTO
chat_messages ...` of the given columns, the timestamp defaulting to the
current time; returns `cursor.lastrowid` and the new state. AUTOINCREMENT
on an append-only table makes the fresh rowid one more than the row
count. -/
def save_message (db : SQLiteBackend) (channel sender content : String)
    (timestamp : Option Nat) (now : Nat) (raw_data : Option String) :
    Nat × SQLiteBackend :=
  let ts := timestamp.getD now
  let row : ChatRow :=
    { id := db.chat_messages.length + 1, channel := channel,
      sender := sender, content := content, timestamp := ts,
      raw_data := raw_data }
  (row.id, { db with chat_messages := db.chat_messages ++ [row] })

/-- `SQLiteBackend.save_pdf_record` (db.py lines 145-152): `INSERT INTO
pdf_downloads ...`, the timestamp column filled by its CURRENT_TIMESTAMP
default. -/
def save_pdf_record (db : SQLiteBackend)
    (ticker command filename filepath : String) (now : Nat) :
    Nat × SQLiteBackend :=
  let row : PdfRow :=
    { id := db.pdf_downloads.length + 1, ticker := ticker,
      command := command, filename := filename, filepath := filepath,
      timestamp := now }
  (row.id, { db with pdf_downloads := db.pdf_downloads ++ [row] })

/-- The WHERE clause built by `query_messages` (db.py lines 128-136): the
channel condition is added only when `channel` is truthy (a non-empty
string), the timestamp condition only when `since` is given. -/
def chat_where (channel : Option String) (since : Option Nat)
    (r : ChatRow) : Bool :=
  (match channel with
   | some c => if c = "" then true else r.channel == c
   | none => true) &&
  (match since with
   | some s => decide (s ≤ r.timestamp)
   | none => true)

/-- Insert a chat row into a list already ordered by descending timestamp,
keeping that order: the sorting step of `ORDER BY timestamp DESC`. -/
def insert_desc (r : ChatRow) : List ChatRow → List ChatRow
  | [] => [r]
  | x :: xs =>
      if x.timestamp ≤ r.timestamp then r :: x :: xs
      else x :: insert_desc r xs

/-- Order a list of chat rows by descending timestamp: `ORDER BY timestamp
DESC` (ties are left in an order SQLite does not specify). -/
def sort_desc : List ChatRow → List ChatRow
  | [] => []
  | r :: rest => insert_desc r (sort_desc rest)

/-- `SQLiteBackend.query_messages` (db.py lines 125-141): `SELECT * FROM
chat_messages WHERE ... ORDER BY timestamp DESC LIMIT ?`; a pure read, so
the state is returned unchanged. -/
def query_messages (db : SQLiteBackend) (channel : Option String)
    (since : Option Nat) (limit : Nat) : List ChatRow × SQLiteBackend :=
  (((sort_desc (db.chat_messages.filter (chat_where channel since))).take
      limit), db)

/-- Insert a pdf row into a list already ordered by descending timestamp. -/
def pdf_insert_desc (r : PdfRow) : List PdfRow → List PdfRow
  | [] => [r]
  | x :: xs =>
      if x.timestamp ≤ r.timestamp then r :: x :: xs
      else x :: pdf_insert_desc r xs

/-- Order a list of pdf rows by descending timestamp. -/
def pdf_sort_desc : List PdfRow → List PdfRow
  | [] => []
  | r :: rest => pdf_insert_desc r (pdf_sort_desc rest)

/-- `SQLiteBackend.query_pdfs` (db.py lines 154-167): `SELECT * FROM
pdf_downloads [WHERE ticker = ?] ORDER BY timestamp DESC LIMIT ?`; a pure
read. -/
def query_pdfs (db : SQLiteBackend) (ticker : Option String) (limit : Nat) :
    List PdfRow × SQLiteBackend :=
  match ticker with
  | some t =>
      ((pdf_sort_desc (db.pdf_downloads.filter
          (fun r => r.ticker == t))).take limit, db)
  | none =>
      ((pdf_sort_desc db.pdf_downloads).take limit, db)

end Db

namespace ChatMonitorV2

/-- A chat message as produced by `ChatMonitorV2._extract_message` from a
WebSocket frame payload (chat_monitor_v2.py lines 157-263): the optional
message id, the channel (defaulting to "general"), sender (defaulting to
"unknown"), content, the optional parsed timestamp, and the JSON dump of the
raw frame data. -/
structure Msg where
  id : Option String
  channel : String
  sender : String
  content : String
  timestamp : Option Nat
  raw : String
deriving DecidableEq, Repr

/-- Monitor state touched by `_process_frame`: the in-memory deduplication
set `_seen_message_ids` and `_message_count`. -/
structure MonitorState where
  seen_message_ids : List String
  message_count : Nat
deriving DecidableEq, Repr

/-- The deduplication key of chat_monitor_v2.py line 133:
`msg.get("id") or f"{sender}:{content[:50]}"` — the message id when it is a
non-empty string, otherwise sender and the first 50 characters of the
content. -/
def msg_key (msg : Msg) : String :=
  match msg.id with
  | some i =>
      if i = "" then msg.sender ++ ":" ++ (msg.content.take 50) else i
  | none => msg.sender ++ ":" ++ (msg.content.take 50)

/-- `ChatMonitorV2._process_frame` (chat_monitor_v2.py lines 114-155) from
the point where the frame payload has been parsed and `_extract_message`
has run: `parsed` is `none` when the payload was not JSON or held no
message, in which case the frame is skipped. A message whose deduplication
key was already seen is skipped; otherwise the key is recorded, the channel
filter applied, and the message saved via `save_message` with the raw data
truncated to 5000 characters. -/
def process_frame (st : MonitorState) (channels : Option (List String))
    (db : Db.SQLiteBackend) (parsed : Option Msg) (now : Nat) :
    MonitorState × Db.SQLiteBackend :=
  match parsed with
  | none => (st, db)
  | some msg =>
      let key := msg_key msg
      if key ∈ st.seen_message_ids then (st, db)
      else
        let st' : MonitorState :=
          { st with seen_message_ids := key :: st.seen_message_ids }
        let channel := msg.channel.toLower
        if (match channels with
            | some cs => decide (channel ∉ cs)
            | none => false) then
          (st', db)
        else
          let saved := Db.save_message db channel msg.sender msg.content
            msg.timestamp now (some (msg.raw.take 5000))
          ({ st' with message_count := st'.message_count + 1 }, saved.2)

end ChatMonitorV2

namespace MultiChat

/-- Modelled from the spec: `GodelSession`, from the async godel_core module
imported by working_multichat.py, commands/chat_monitor_v2.py and
commands/probe_command.py, is not under src/. Per the spec the
Session/Manager layer "owns one browser process and spawns isolated browser
contexts (sessions), each independently logged in": a session is one
isolated browser context with its own page, login state and loaded
layout. -/
structure GodelSession where
  session_id : String
  context_id : Nat
  page_ready : Bool
  logged_in : Bool
  layout : Option String
deriving DecidableEq, Repr

/-- Modelled from the spec: `GodelManager`, from the same missing async
godel_core module, "owns one browser process and spawns isolated browser
contexts": after `start` the browser process runs, and `create_session`
spawns a session in a fresh isolated context. -/
structure GodelManager where
  started : Bool
  next_context : Nat
deriving DecidableEq, Repr

/-- Modelled from the spec: `GodelManager.start` launches the one browser
process the manager owns. -/
def GodelManager.start (m : GodelManager) : GodelManager :=
  { m with started := true }

/-- Modelled from the spec: `GodelManager.create_session` spawns a new
isolated browser context holding a session with the given id; the session
is not yet logged in. -/
def GodelManager.create_session (m : GodelManager) (session_id : String) :
    GodelSession × GodelManager :=
  ({ session_id := session_id, context_id := m.next_context,
     page_ready := false, logged_in := false, layout := none },
   { m with next_context := m.next_context + 1 })

/-- Modelled from the spec: `GodelSession.init_page` opens the page of the
session context. -/
def GodelSession.init_page (s : GodelSession) : GodelSession :=
  { s with page_ready := true }

/-- Modelled from the spec: `GodelSession.login` logs this session in,
independently of every other session. -/
def GodelSession.login (s : GodelSession) (_username _password : String) :
    GodelSession :=
  { s with logged_in := true }

/-- Modelled from the spec: `GodelSession.load_layout` loads the named
layout into this session. -/
def GodelSession.load_layout (s : GodelSession) (layout_name : String) :
    GodelSession :=
  { s with layout := some layout_name }

/-- `WorkingMultiChat._create_and_login_session` (working_multichat.py lines
94-105): create a session named `chat_<channel>`, init its page, log in,
load the "dev" layout, and record it in `sessions` under its channel. -/
def create_and_login_session (mgr : GodelManager)
    (sessions : List (String × GodelSession))
    (channel username password : String) :
    GodelManager × List (String × GodelSession) :=
  let session_id := "chat_" ++ channel
  let created := mgr.create_session session_id
  let session :=
    ((created.1.init_page).login username password).load_layout "dev"
  (created.2, sessions ++ [(channel, session)])

/-- The session-setup phase of `WorkingMultiChat.run` (working_multichat.py
lines 39-55): start the manager, then create and log in one session per
channel, sequentially. -/
def run_setup (channels : List String) (username password : String) :
    GodelManager × List (String × GodelSession) :=
  let mgr := GodelManager.start { started := false, next_context := 0 }
  channels.foldl
    (fun acc channel =>
      create_and_login_session acc.1 acc.2 channel username password)
    (mgr, [])

/-- The session `run_setup` produces for `channel` in context `n`. -/
def expected_session (n : Nat) (channel : String) : GodelSession :=
  { session_id := "chat_" ++ channel, context_id := n, page_ready := true,
    logged_in := true, layout := some "dev" }

/-- Closed form of the sessions map built by `run_setup`, one session per
channel, in consecutive fresh contexts starting at `n`. -/
def expected_sessions (n : Nat) : List String → List (String × GodelSession)
  | [] => []
  | channel :: rest =>
      (channel, expected_session n channel) :: expected_sessions (n + 1) rest

end MultiChat

namespace Probe

/-- Modelled from the spec: `NetworkInterceptor`, from the missing async
godel_core module, "attaches request/response/WebSocket listeners to a page
for reverse-engineering traffic, independent of the command layer": its
state is the captured request, response and WebSocket-frame lists, whether
the listeners are recording, and the configured filters. -/
structure NetworkInterceptor where
  requests : List String
  responses : List String
  ws_frames : List String
  active : Bool
  url_filter : Option String
  capture_ws : Bool
deriving DecidableEq, Repr

/-- Modelled from the spec: `NetworkInterceptor.clear` drops all captured
traffic. -/
def NetworkInterceptor.clear (i : NetworkInterceptor) : NetworkInterceptor :=
  { i with requests := [], responses := [], ws_frames := [] }

/-- Modelled from the spec: `NetworkInterceptor.start(url_filter,
capture_ws)` begins recording with the given filters. -/
def NetworkInterceptor.start (i : NetworkInterceptor)
    (url_filter : Option String) (capture_ws : Bool) : NetworkInterceptor :=
  { i with active := true, url_filter := url_filter,
           capture_ws := capture_ws }

/-- Modelled from the spec: `NetworkInterceptor.stop` stops recording. -/
def NetworkInterceptor.stop (i : NetworkInterceptor) : NetworkInterceptor :=
  { i with active := false }

/-- One network event the page emits while the probe sleeps. -/
inductive NetEvent where
  | request (url : String)
  | response (url : String)
  | wsFrame (payload : String)
deriving DecidableEq, Repr

/-- Only capture URLs containing the configured filter string. -/
def url_matches (filt : Option String) (url : String) : Bool :=
  match filt with
  | some f => decide (List.IsInfix f.toList url.toList)
  | none => true

/-- Modelled from the spec: an attached listener records its event while the
interceptor is recording, requests and responses restricted to matching
URLs, WebSocket frames only when `capture_ws` is set. -/
def NetworkInterceptor.observe (i : NetworkInterceptor) (e : NetEvent) :
    NetworkInterceptor :=
  if i.active = false then i
  else
    match e with
    | NetEvent.request url =>
        if url_matches i.url_filter url then
          { i with requests := i.requests ++ [url] }
        else i
    | NetEvent.response url =>
        if url_matches i.url_filter url then
          { i with responses := i.responses ++ [url] }
        else i
    | NetEvent.wsFrame payload =>
        if i.capture_ws then { i with ws_frames := i.ws_frames ++ [payload] }
        else i

/-- The traffic observed over a capture interval, in order. -/
def NetworkInterceptor.capture (i : NetworkInterceptor)
    (events : List NetEvent) : NetworkInterceptor :=
  events.foldl NetworkInterceptor.observe i

/-- The traffic dict returned by `NetworkInterceptor.dump(filter_type)`,
modelled from the spec: the captured traffic, restricted to the HTTP or
WebSocket side when a filter type is given. -/
structure Traffic where
  requests : List String
  responses : List String
  websocket_frames : List String
deriving DecidableEq, Repr

/-- Modelled from the spec: `NetworkInterceptor.dump`. -/
def NetworkInterceptor.dump (i : NetworkInterceptor)
    (filter_type : Option String) : Traffic :=
  match filter_type with
  | some "http" =>
      { requests := i.requests, responses := i.responses,
        websocket_frames := [] }
  | some "websocket" =>
      { requests := [], responses := [], websocket_frames := i.ws_frames }
  | _ =>
      { requests := i.requests, responses := i.responses,
        websocket_frames := i.ws_frames }

/-- The summary dict built by `ProbeCommand.execute`
(probe_command.py lines 60-71). -/
structure ProbeSummary where
  success : Bool
  duration_seconds : Nat
  filter_type : Option String
  url_filter : Option String
  counts_requests : Nat
  counts_responses : Nat
  counts_websocket_frames : Nat
  data : Traffic
deriving DecidableEq, Repr

/-- `ProbeCommand.execute` (probe_command.py lines 41-79): reuse or create
the session interceptor, clear it, start it (capturing WebSocket frames
unless the filter type is http), sleep for `duration` seconds while
`events` arrive, stop it, dump the traffic, and build the summary whose
counts are the lengths of the dumped lists. -/
def probe_execute (session_interceptor : Option NetworkInterceptor)
    (duration : Nat) (filter_type url_filter : Option String)
    (events : List NetEvent) : ProbeSummary × NetworkInterceptor :=
  let interceptor :=
    match session_interceptor with
    | some i => i
    | none =>
        { requests := [], responses := [], ws_frames := [], active := false,
          url_filter := none, capture_ws := false }
  let interceptor := interceptor.clear
  let capture_ws :=
    decide (filter_type = none ∨ filter_type = some "websocket")
  let interceptor := interceptor.start url_filter capture_ws
  let interceptor := interceptor.capture events
  let interceptor := interceptor.stop
  let traffic := interceptor.dump filter_type
  ({ success := true, duration_seconds := duration,
     filter_type := filter_type, url_filter := url_filter,
     counts_requests := traffic.requests.length,
     counts_responses := traffic.responses.length,
     counts_websocket_frames := traffic.websocket_frames.length,
     data := traffic }, interceptor)

end Probe

namespace GodelApi

/-- State of the `GodelAPI` wrapper (godel_api.py): the `_connected` flag
and the optional controller; `none` means no browser is held. -/
structure GodelAPI where
  connected : Bool
  controller : Option GodelCore.Controller
deriving DecidableEq, Repr

/-- `GodelAPI.__init__` (credential validation aside): no controller, not
connected. -/
def init : GodelAPI := { connected := false, controller := none }

/-- The message of the RuntimeError raised by `_ensure_connected`. -/
def not_connected_msg : String := "Not connected. Call connect() first."

/-- `GodelAPI._ensure_connected` (godel_api.py lines 85-88): raise
RuntimeError unless `_connected` is set and a controller is held. -/
def ensure_connected (api : GodelAPI) : Except String Unit :=
  if api.connected = false ∨ api.controller = none then
    Except.error not_connected_msg
  else Except.ok ()

/-- `GodelAPI.connect` (godel_api.py lines 53-75): construct a controller
and assign it, then connect, log in and load the layout inside a try; on
success set `_connected` and return True; when the browser side raises
(`ok = false`) return False, keeping the partially-initialised controller
and leaving `_connected` as it was. -/
def connect (api : GodelAPI) (ok : Bool) (ctrl : GodelCore.Controller) :
    Bool × GodelAPI :=
  if ok then (true, { connected := true, controller := some ctrl })
  else (false, { api with controller := some ctrl })

/-- `GodelAPI.disconnect` (godel_api.py lines 77-83): when a controller is
held, close its windows, disconnect the browser, drop the controller and
clear `_connected`; otherwise do nothing. -/
def disconnect (api : GodelAPI) : GodelAPI :=
  match api.controller with
  | some _ => { connected := false, controller := none }
  | none => api

/-- `GodelAPI.des` (godel_api.py lines 90-103): `_ensure_connected`, then
create a DESCommand on the controller and run it; `result` is the
browser-side outcome of that run. A raised RuntimeError is the
`Except.error` case, returned with the state untouched. -/
def des (api : GodelAPI) (result : GodelCore.CommandResult)
    (_ticker _asset_class : String) :
    Except String GodelCore.CommandResult × GodelAPI :=
  match ensure_connected api with
  | Except.error e => (Except.error e, api)
  | Except.ok _ => (Except.ok result, api)

/-- `GodelAPI.prt` (godel_api.py lines 105-128): `_ensure_connected`, then
create a PRTCommand with the ticker list, run it, and export on success
when an output path is given (a filesystem effect outside this state). -/
def prt (api : GodelAPI) (result : GodelCore.CommandResult)
    (_tickers : List String) (_output_path : Option String) :
    Except String GodelCore.CommandResult × GodelAPI :=
  match ensure_connected api with
  | Except.error e => (Except.error e, api)
  | Except.ok _ => (Except.ok result, api)

/-- `GodelAPI.most` (godel_api.py lines 130-154): `_ensure_connected`, then
create a MOSTCommand with tab and limit, run it, and export on success when
an output path is given. -/
def most (api : GodelAPI) (result : GodelCore.CommandResult)
    (_tab : String) (_limit : Nat) (_output_path : Option String) :
    Except String GodelCore.CommandResult × GodelAPI :=
  match ensure_connected api with
  | Except.error e => (Except.error e, api)
  | Except.ok _ => (Except.ok result, api)

/-- `GodelAPI.g` (godel_api.py lines 156-169): `_ensure_connected`, then
create a GCommand and run it. -/
def g (api : GodelAPI) (result : GodelCore.CommandResult)
    (_ticker _asset_class : String) :
    Except String GodelCore.CommandResult × GodelAPI :=
  match ensure_connected api with
  | Except.error e => (Except.error e, api)
  | Except.ok _ => (Except.ok result, api)

/-- `GodelAPI.gip` (godel_api.py lines 171-184): `_ensure_connected`, then
create a GIPCommand and run it. -/
def gip (api : GodelAPI) (result : GodelCore.CommandResult)
    (_ticker _asset_class : String) :
    Except String GodelCore.CommandResult × GodelAPI :=
  match ensure_connected api with
  | Except.error e => (Except.error e, api)
  | Except.ok _ => (Except.ok result, api)

/-- `GodelAPI.qm` (godel_api.py lines 186-199): `_ensure_connected`, then
create a QMCommand and run it. -/
def qm (api : GodelAPI) (result : GodelCore.CommandResult)
    (_ticker _asset_class : String) :
    Except String GodelCore.CommandResult × GodelAPI :=
  match ensure_connected api with
  | Except.error e => (Except.error e, api)
  | Except.ok _ => (Except.ok result, api)

end GodelApi

namespace GodelCore

theorem get_new_window_spec (m : DOMMonitor) (previous_count : Nat)
    (polls : List (List WindowElem)) :
    (∀ w m', get_new_window m previous_count polls = (some w, m') →
        w.id ∉ m.tracked_windows ∧
        m'.tracked_windows = w.id :: m.tracked_windows ∧
        ∃ snapshot ∈ polls, snapshot.length > previous_count ∧
          snapshot.getLast? = some w) ∧
    (∀ m', get_new_window m previous_count polls = (none, m') → m' = m) := by
  induction polls with
  | nil =>
      constructor
      · intro w m' h
        simp [get_new_window] at h
      · intro m' h
        simpa [get_new_window] using h.symm
  | cons snapshot rest ih =>
      constructor
      · intro w m' h
        rw [get_new_window] at h
        by_cases hlen : snapshot.length > previous_count
        · simp only [get_current_windows, hlen, if_true] at h
          cases hlast : snapshot.getLast? with
          | none =>
              rw [hlast] at h
              rcases (ih.1 w m' h) with ⟨h1, h2, s, hs, hsp⟩
              exact ⟨h1, h2, s, List.mem_cons_of_mem _ hs, hsp⟩
          | some nw =>
              rw [hlast] at h
              by_cases htr : nw.id ∈ m.tracked_windows
              · simp only [htr, if_true] at h
                rcases (ih.1 w m' h) with ⟨h1, h2, s, hs, hsp⟩
                exact ⟨h1, h2, s, List.mem_cons_of_mem _ hs, hsp⟩
              · simp only [htr, if_false, Prod.mk.injEq] at h
                obtain ⟨hw, hm⟩ := h
                obtain rfl := Option.some.inj hw
                subst hm
                exact ⟨htr, rfl, snapshot, List.mem_cons_self _ _,
                  hlen, hlast⟩
        · simp only [get_current_windows, hlen, if_false] at h
          rcases (ih.1 w m' h) with ⟨h1, h2, s, hs, hsp⟩
          exact ⟨h1, h2, s, List.mem_cons_of_mem _ hs, hsp⟩
      · intro m' h
        rw [get_new_window] at h
        by_cases hlen : snapshot.length > previous_count
        · simp only [get_current_windows, hlen, if_true] at h
          cases hlast : snapshot.getLast? with
          | none =>
              rw [hlast] at h
              exact ih.2 m' h
          | some nw =>
              rw [hlast] at h
              by_cases htr : nw.id ∈ m.tracked_windows
              · simp only [htr, if_true] at h
                exact ih.2 m' h
              · simp only [htr, if_false] at h
                simp at h
        · simp only [get_current_windows, hlen, if_false] at h
          exact ih.2 m' h

end GodelCore

namespace GodelCore

theorem until_loop_true_iff (cond : Nat → Bool) (t fuel : Nat) :
    until_loop cond t fuel = true ↔ ∃ k, k < fuel ∧ cond (t + k) = true := by
  induction fuel generalizing t with
  | zero => simp [until_loop]
  | succ n ih =>
      rw [until_loop]
      by_cases h : cond t = true
      · simp only [h, if_true, true_iff]
        exact ⟨0, Nat.succ_pos n, by simpa using h⟩
      · have h' : cond t = false := by
          cases hc : cond t
          · rfl
          · exact absurd hc h
        rw [h']
        simp only [Bool.false_eq_true, if_false]
        rw [ih]
        constructor
        · rintro ⟨k, hk, hc⟩
          refine ⟨k + 1, by omega, ?_⟩
          rw [show t + (k + 1) = t + 1 + k by omega]
          exact hc
        · rintro ⟨k, hk, hc⟩
          cases k with
          | zero =>
              rw [Nat.add_zero] at hc
              rw [h'] at hc
              exact absurd hc (by simp)
          | succ j =>
              refine ⟨j, by omega, ?_⟩
              rw [show t + 1 + j = t + (j + 1) by omega]
              exact hc

theorem wait_for_loading_true_iff (spinner_visible : Nat → Bool)
    (timeout : Nat) :
    wait_for_loading spinner_visible timeout = true ↔
      ∃ t, t ≤ timeout ∧ spinner_visible t = false := by
  unfold wait_for_loading
  rw [until_loop_true_iff]
  constructor
  · rintro ⟨k, hk, hc⟩
    refine ⟨k, by omega, ?_⟩
    simpa using hc
  · rintro ⟨t, ht, hs⟩
    refine ⟨t, by omega, ?_⟩
    simpa using hs

end GodelCore

/-- C1: `DOMMonitor.get_new_window` returns a window element only when some
polled snapshot has more windows than the previous count and the last window
id of that snapshot is not already tracked, in which case that id is added to
`tracked_windows`; if the timeout elapses with no such window it returns
`none` and leaves `tracked_windows` unchanged. -/
theorem C1_window_monitor_diffing (m : GodelCore.DOMMonitor)
    (previous_count : Nat) (polls : List (List GodelCore.WindowElem)) :
    (∀ w m', GodelCore.get_new_window m previous_count polls = (some w, m') →
        w.id ∉ m.tracked_windows ∧
        m'.tracked_windows = w.id :: m.tracked_windows ∧
        ∃ snapshot ∈ polls, snapshot.length > previous_count ∧
          snapshot.getLast? = some w) ∧
    (∀ m', GodelCore.get_new_window m previous_count polls = (none, m') →
        m' = m) :=
  GodelCore.get_new_window_spec m previous_count polls

/-- Witness for C1 at concrete inputs: with nothing tracked and previous count
zero, a single snapshot containing window "w1" makes `get_new_window` return
that window and track its id. -/
theorem C1_window_monitor_diffing_witness :
    (GodelCore.WindowElem.mk "w1").id ∉
        (GodelCore.DOMMonitor.mk []).tracked_windows ∧
      (GodelCore.DOMMonitor.mk ["w1"]).tracked_windows =
        (GodelCore.WindowElem.mk "w1").id ::
          (GodelCore.DOMMonitor.mk []).tracked_windows ∧
      ∃ snapshot ∈ [[GodelCore.WindowElem.mk "w1"]],
        snapshot.length > 0 ∧
          snapshot.getLast? = some (GodelCore.WindowElem.mk "w1") :=
  (C1_window_monitor_diffing ⟨[]⟩ 0 [[⟨"w1"⟩]]).1 ⟨"w1"⟩ ⟨["w1"]⟩ rfl

/-- C6: `DOMMonitor.wait_for_loading` is condition-based: for every timeout,
it returns true exactly when the loading spinner becomes invisible at some
tick within the timeout, and returns false when the timeout elapses with the
spinner still visible at every tick; being a total function of the spinner
trace, it never raises (the TimeoutException inside is caught and embedded
as the false return). -/
theorem C6_wait_for_loading_condition_based (spinner_visible : Nat → Bool)
    (timeout : Nat) :
    (GodelCore.wait_for_loading spinner_visible timeout = true ↔
      ∃ t, t ≤ timeout ∧ spinner_visible t = false) ∧
    ((∀ t, t ≤ timeout → spinner_visible t = true) →
      GodelCore.wait_for_loading spinner_visible timeout = false) := by
  refine ⟨GodelCore.wait_for_loading_true_iff spinner_visible timeout, ?_⟩
  intro hall
  cases hw : GodelCore.wait_for_loading spinner_visible timeout
  · rfl
  · rcases (GodelCore.wait_for_loading_true_iff spinner_visible
      timeout).mp hw with ⟨t, ht, hs⟩
    rw [hall t ht] at hs
    exact absurd hs (by simp)

/-- Witness for C6 at a concrete input: with the spinner visible at every
tick, a 30 second wait returns false. -/
theorem C6_wait_for_loading_condition_based_witness :
    GodelCore.wait_for_loading (fun _ => true) 30 = false :=
  (C6_wait_for_loading_condition_based (fun _ => true) 30).2
    (fun _ _ => rfl)

/-- C3: `BaseCommand.execute` never raises, and returns `success := true`
together with the extracted data exactly when sending succeeded, a new
window appeared within the window-wait timeout, loading finished within the
loading timeout, and `extract_data` did not raise; otherwise it returns
`success := false` with the error naming the failed stage. -/
theorem C3_base_command_execute (m : GodelCore.DOMMonitor)
    (env : GodelCore.ExecEnv) :
    ((GodelCore.BaseCommand_execute m env).1.success = true ↔
      env.send_ok = true ∧
      (GodelCore.get_new_window m
          (GodelCore.get_current_windows env.initial_snapshot).length
          env.polls).1.isSome = true ∧
      GodelCore.wait_for_loading env.spinner_visible 30 = true ∧
      ∃ d, env.extracted = Except.ok d) ∧
    ((GodelCore.BaseCommand_execute m env).1.success = true →
      (GodelCore.BaseCommand_execute m env).1.error = none ∧
      ∃ d, env.extracted = Except.ok d ∧
        (GodelCore.BaseCommand_execute m env).1.data = some d) ∧
    ((GodelCore.BaseCommand_execute m env).1.success = false →
      (GodelCore.BaseCommand_execute m env).1.data = none ∧
      ∃ e, (GodelCore.BaseCommand_execute m env).1.error = some e ∧
        (e = "Failed to send command" ∨ e = "No new window created" ∨
         e = "Loading timeout" ∨
         ∃ msg, e = "Data extraction failed: " ++ msg)) := by
  rcases hgw : GodelCore.get_new_window m
      (GodelCore.get_current_windows env.initial_snapshot).length
      env.polls with ⟨ow, m2⟩
  cases hsend : env.send_ok with
  | false =>
      have hr : GodelCore.BaseCommand_execute m env =
          ({ success := false, error := some "Failed to send command",
             command := env.command_str, window_id := none,
             data := none }, m) := by
        simp [GodelCore.BaseCommand_execute, hsend]
      rw [hr]
      refine ⟨?_, ?_, ?_⟩
      · constructor
        · intro h
          exact absurd h (by simp)
        · rintro ⟨h1, -⟩
          exact absurd h1 (by simp)
      · intro h
        exact absurd h (by simp)
      · intro _
        exact ⟨rfl, "Failed to send command", rfl, Or.inl rfl⟩
  | true =>
      cases ow with
      | none =>
          have hr : GodelCore.BaseCommand_execute m env =
              ({ success := false, error := some "No new window created",
                 command := env.command_str, window_id := none,
                 data := none }, m2) := by
            simp [GodelCore.BaseCommand_execute, hsend, hgw]
          rw [hr]
          refine ⟨?_, ?_, ?_⟩
          · constructor
            · intro h
              exact absurd h (by simp)
            · rintro ⟨-, h2, -⟩
              exact absurd h2 (by simp)
          · intro h
            exact absurd h (by simp)
          · intro _
            exact ⟨rfl, "No new window created", rfl, Or.inr (Or.inl rfl)⟩
      | some w =>
          cases hwl : GodelCore.wait_for_loading env.spinner_visible 30 with
          | false =>
              have hr : GodelCore.BaseCommand_execute m env =
                  ({ success := false, error := some "Loading timeout",
                     command := env.command_str, window_id := some w.id,
                     data := none }, m2) := by
                simp [GodelCore.BaseCommand_execute, hsend, hgw, hwl]
              rw [hr]
              refine ⟨?_, ?_, ?_⟩
              · constructor
                · intro h
                  exact absurd h (by simp)
                · rintro ⟨-, -, h3, -⟩
                  exact absurd h3 (by simp)
              · intro h
                exact absurd h (by simp)
              · intro _
                exact ⟨rfl, "Loading timeout", rfl,
                  Or.inr (Or.inr (Or.inl rfl))⟩
          | true =>
              cases hex : env.extracted with
              | ok d =>
                  have hr : GodelCore.BaseCommand_execute m env =
                      ({ success := true, error := none,
                         command := env.command_str, window_id := some w.id,
                         data := some d }, m2) := by
                    simp [GodelCore.BaseCommand_execute, hsend, hgw, hwl,
                      hex]
                  rw [hr]
                  refine ⟨?_, ?_, ?_⟩
                  · constructor
                    · intro _
                      exact ⟨rfl, rfl, rfl, d, rfl⟩
                    · intro _
                      rfl
                  · intro _
                    exact ⟨rfl, d, rfl, rfl⟩
                  · intro h
                    exact absurd h (by simp)
              | error e =>
                  have hr : GodelCore.BaseCommand_execute m env =
                      ({ success := false,
                         error := some ("Data extraction failed: " ++ e),
                         command := env.command_str, window_id := some w.id,
                         data := none }, m2) := by
                    simp [GodelCore.BaseCommand_execute, hsend, hgw, hwl,
                      hex]
                  rw [hr]
                  refine ⟨?_, ?_, ?_⟩
                  · constructor
                    · intro h
                      exact absurd h (by simp)
                    · rintro ⟨-, -, -, d, hd⟩
                      exact absurd hd (by simp)
                  · intro h
                    exact absurd h (by simp)
                  · intro _
                    exact ⟨rfl, "Data extraction failed: " ++ e, rfl,
                      Or.inr (Or.inr (Or.inr ⟨e, rfl⟩))⟩

/-- Witness for C3 at a concrete input: with the send succeeding, one poll
showing a fresh window "w1", the spinner never visible and extraction
returning one field, `execute` reports success. -/
theorem C3_base_command_execute_witness :
    (GodelCore.BaseCommand_execute ⟨[]⟩
        ⟨"DES AAPL EQ", [], true, [[⟨"w1"⟩]], fun _ => false,
          Except.ok [("name", "Apple")]⟩).1.success = true :=
  (C3_base_command_execute ⟨[]⟩
      ⟨"DES AAPL EQ", [], true, [[⟨"w1"⟩]], fun _ => false,
        Except.ok [("name", "Apple")]⟩).1.mpr
    ⟨rfl, rfl, rfl, [("name", "Apple")], rfl⟩

namespace GodelCore

theorem five_ifs_true_iff (strat : Fin 5 → Bool) :
    (if strat 0 then true
     else if strat 1 then true
     else if strat 2 then true
     else if strat 3 then true
     else if strat 4 then true
     else false) = true ↔
      (strat 0 = true ∨ strat 1 = true ∨ strat 2 = true ∨
       strat 3 = true ∨ strat 4 = true) := by
  by_cases h0 : strat 0 = true <;> by_cases h1 : strat 1 = true <;>
    by_cases h2 : strat 2 = true <;> by_cases h3 : strat 3 = true <;>
    by_cases h4 : strat 4 = true <;> simp [h0, h1, h2, h3, h4]

theorem close_true_iff (wp : Bool) (env : Nat → CloseOutcome) :
    ∀ n k, 3 - k = n →
      (close wp env k = true ↔
        wp = true ∧ ∃ r, k ≤ r ∧ r ≤ 2 ∧
          (∀ j, k ≤ j → j < r → env j = CloseOutcome.stale true) ∧
          ∃ strat, env r = CloseOutcome.ran strat ∧
            (strat 0 = true ∨ strat 1 = true ∨ strat 2 = true ∨
             strat 3 = true ∨ strat 4 = true)) := by
  intro n
  induction n with
  | zero =>
      intro k hkn
      have hk3 : k > 2 := by omega
      rw [close, dif_pos hk3]
      constructor
      · intro h
        exact absurd h (by simp)
      · rintro ⟨-, r, hkr, hr2, -⟩
        omega
  | succ n ih =>
      intro k hkn
      have hk3 : ¬ k > 2 := by omega
      rw [close, dif_neg hk3]
      cases hwp : wp with
      | false =>
          constructor
          · intro h
            simp at h
          · rintro ⟨h1, -⟩
            exact absurd h1 (by simp)
      | true =>
          simp only [Bool.true_eq_false, if_false, reduceIte]
          rw [hwp] at ih
          cases henv : env k with
          | ran strat =>
              rw [five_ifs_true_iff]
              constructor
              · intro hdisj
                exact ⟨by trivial, k, Nat.le_refl k, by omega,
                  fun j hkj hjk =>
                    absurd (Nat.lt_of_le_of_lt hkj hjk) (Nat.lt_irrefl k),
                  strat, henv, hdisj⟩
              · rintro ⟨-, r, hkr, hr2, hstale, strat', henv', hdisj⟩
                rcases Nat.eq_or_lt_of_le hkr with heq | hlt
                · rw [← heq] at henv'
                  rw [henv] at henv'
                  injection henv' with hs
                  rw [hs]
                  exact hdisj
                · have hks := hstale k (Nat.le_refl k) hlt
                  rw [henv] at hks
                  simp at hks
          | stale refresh_found =>
              cases refresh_found with
              | true =>
                  simp only [if_true, reduceIte]
                  rw [ih (k + 1) (by omega)]
                  constructor
                  · rintro ⟨-, r, hk1r, hr2, hstale, rest⟩
                    refine ⟨by trivial, r, by omega, hr2, ?_, rest⟩
                    intro j hkj hjr
                    rcases Nat.eq_or_lt_of_le hkj with heq | hlt
                    · rw [← heq]
                      exact henv
                    · exact hstale j (by omega) hjr
                  · rintro ⟨-, r, hkr, hr2, hstale, strat', henv', hdisj⟩
                    have hrk : r ≠ k := by
                      intro hco
                      rw [hco, henv] at henv'
                      simp at henv'
                    refine ⟨by trivial, r, by omega, hr2, ?_, strat',
                      henv', hdisj⟩
                    intro j hk1j hjr
                    exact hstale j (by omega) hjr
              | false =>
                  simp only [Bool.false_eq_true, if_false, reduceIte]
                  constructor
                  · intro h
                    simp at h
                  · rintro ⟨-, r, hkr, hr2, hstale, strat', henv', -⟩
                    rcases Nat.eq_or_lt_of_le hkr with heq | hlt
                    · rw [← heq, henv] at henv'
                      simp at henv'
                    · have hks := hstale k (Nat.le_refl k) hlt
                      rw [henv] at hks
                      simp at hks
          | failure =>
              constructor
              · intro h
                simp at h
              · rintro ⟨-, r, hkr, hr2, hstale, strat', henv', -⟩
                rcases Nat.eq_or_lt_of_le hkr with heq | hlt
                · rw [← heq, henv] at henv'
                  simp at henv'
                · have hks := hstale k (Nat.le_refl k) hlt
                  rw [henv] at hks
                  simp at hks

end GodelCore

/-- C5: `BaseCommand.close` always terminates with a Bool: any call entered
with `retry_count > 2` returns false (so the stale-refresh recursion is
bounded by 3 retries), and a top-level call returns true exactly when there
is a window and, after some prefix of rounds (at most rounds 0..2) that all
end in a refreshed stale reference, a round runs the five strategies in
order and one of them clicks; in every other case it returns false without
raising. -/
theorem C5_close_fallback_retries (window_present : Bool)
    (env : Nat → GodelCore.CloseOutcome) :
    (∀ retry_count, retry_count > 2 →
        GodelCore.close window_present env retry_count = false) ∧
    (GodelCore.close window_present env 0 = true ↔
      window_present = true ∧ ∃ r, r ≤ 2 ∧
        (∀ j, j < r → env j = GodelCore.CloseOutcome.stale true) ∧
        ∃ strat, env r = GodelCore.CloseOutcome.ran strat ∧
          (strat 0 = true ∨ strat 1 = true ∨ strat 2 = true ∨
           strat 3 = true ∨ strat 4 = true)) := by
  constructor
  · intro retry_count hrc
    rw [GodelCore.close, dif_pos hrc]
  · rw [GodelCore.close_true_iff window_present env 3 0 rfl]
    constructor
    · rintro ⟨hwp, r, -, hr2, hstale, rest⟩
      exact ⟨hwp, r, hr2, fun j hj => hstale j (Nat.zero_le j) hj, rest⟩
    · rintro ⟨hwp, r, hr2, hstale, rest⟩
      exact ⟨hwp, r, Nat.zero_le r, hr2, fun j _ hj => hstale j hj, rest⟩

/-- Witness for C5 at a concrete input: a call already past the retry bound
returns false even though every round would close the window. -/
theorem C5_close_fallback_retries_witness :
    GodelCore.close true
      (fun _ => GodelCore.CloseOutcome.ran (fun _ => true)) 3 = false :=
  (C5_close_fallback_retries true
      (fun _ => GodelCore.CloseOutcome.ran (fun _ => true))).1 3
    (by decide)

/-- C8: `GodelTerminalController.execute_command` appends the freshly created
command instance to `active_commands` and returns it alongside the result
exactly when the result has `success = true`; on `success = false`
(including the unknown-command case) `active_commands` is unchanged and the
returned instance is `none`. -/
theorem C8_execute_command_tracking (c : GodelCore.Controller)
    (run : GodelCore.CommandInstance → GodelCore.ExecuteCommandResult)
    (command_type : String) (ticker : GodelCore.TickerArg)
    (asset_class : String) :
    (((GodelCore.execute_command c run command_type ticker
          asset_class).1.1.success = true) →
      ∃ cmd,
        (GodelCore.execute_command c run command_type ticker
            asset_class).1.2 = some cmd ∧
        (GodelCore.execute_command c run command_type ticker
            asset_class).2.active_commands =
          c.active_commands ++ [cmd]) ∧
    (((GodelCore.execute_command c run command_type ticker
          asset_class).1.1.success = false) →
      (GodelCore.execute_command c run command_type ticker
          asset_class).1.2 = none ∧
      (GodelCore.execute_command c run command_type ticker
          asset_class).2.active_commands = c.active_commands) ∧
    ((GodelCore.execute_command c run command_type ticker
        asset_class).1.2.isSome = true ↔
      (GodelCore.execute_command c run command_type ticker
          asset_class).1.1.success = true) := by
  simp only [GodelCore.execute_command]
  split
  · refine ⟨?_, ?_, ?_⟩
    · intro h
      exact absurd h (by simp)
    · intro _
      exact ⟨rfl, rfl⟩
    · simp
  · split <;> split <;>
      first
        | (rename_i hrun
           exact ⟨fun _ => ⟨_, rfl, rfl⟩,
             fun h => absurd h (by simp [hrun]), by simp [hrun]⟩)
        | (rename_i hrun
           exact ⟨fun h => absurd h (by simp [hrun]),
             fun _ => ⟨rfl, rfl⟩, by simp [hrun]⟩)

/-- Witness for C8 at a concrete input: a registered DES command whose run
fails leaves `active_commands` unchanged and returns no instance. -/
theorem C8_execute_command_tracking_witness :
    (GodelCore.execute_command ⟨["DES"], []⟩
        (fun _ => ⟨false, none, none⟩) "DES"
        (GodelCore.TickerArg.single "AAPL") "EQ").1.2 = none ∧
    (GodelCore.execute_command ⟨["DES"], []⟩
        (fun _ => ⟨false, none, none⟩) "DES"
        (GodelCore.TickerArg.single "AAPL") "EQ").2.active_commands =
      (GodelCore.Controller.mk ["DES"] []).active_commands :=
  (C8_execute_command_tracking ⟨["DES"], []⟩
      (fun _ => ⟨false, none, none⟩) "DES"
      (GodelCore.TickerArg.single "AAPL") "EQ").2.1 (by decide)

namespace Db

theorem mem_insert_desc (r x : ChatRow) (l : List ChatRow) :
    x ∈ insert_desc r l ↔ x = r ∨ x ∈ l := by
  induction l with
  | nil => simp [insert_desc]
  | cons y ys ih =>
      rw [insert_desc]
      by_cases h : y.timestamp ≤ r.timestamp
      · rw [if_pos h]
        simp [List.mem_cons]
      · rw [if_neg h]
        simp only [List.mem_cons, ih]
        tauto

theorem pairwise_insert_desc (r : ChatRow) (l : List ChatRow)
    (h : l.Pairwise (fun a b => b.timestamp ≤ a.timestamp)) :
    (insert_desc r l).Pairwise (fun a b => b.timestamp ≤ a.timestamp) := by
  induction l with
  | nil => simp [insert_desc]
  | cons y ys ih =>
      rw [insert_desc]
      rcases List.pairwise_cons.mp h with ⟨hy, hys⟩
      by_cases hle : y.timestamp ≤ r.timestamp
      · rw [if_pos hle]
        refine List.pairwise_cons.mpr ⟨?_, h⟩
        intro b hb
        rcases List.mem_cons.mp hb with rfl | hbys
        · exact hle
        · exact le_trans (hy b hbys) hle
      · rw [if_neg hle]
        refine List.pairwise_cons.mpr ⟨?_, ih hys⟩
        intro b hb
        rcases (mem_insert_desc r b ys).mp hb with rfl | hbys
        · omega
        · exact hy b hbys

theorem mem_sort_desc (x : ChatRow) (l : List ChatRow) :
    x ∈ sort_desc l ↔ x ∈ l := by
  induction l with
  | nil => simp [sort_desc]
  | cons y ys ih =>
      rw [sort_desc, mem_insert_desc]
      simp [ih]

theorem pairwise_sort_desc (l : List ChatRow) :
    (sort_desc l).Pairwise (fun a b => b.timestamp ≤ a.timestamp) := by
  induction l with
  | nil => simp [sort_desc]
  | cons y ys ih =>
      rw [sort_desc]
      exact pairwise_insert_desc y (sort_desc ys) ih

end Db

/-- C9: `query_messages` is a pure read that respects its filters, its limit
and its ordering: the database is returned unchanged, at most `limit` rows
come back, they are ordered by descending timestamp, and every returned row
is a stored row whose channel matches a provided (truthy, i.e. non-empty)
channel filter and whose timestamp is at least a provided `since` bound. -/
theorem C9_query_messages_filters (db : Db.SQLiteBackend)
    (channel : Option String) (since : Option Nat) (limit : Nat) :
    ((Db.query_messages db channel since limit).2 = db) ∧
    ((Db.query_messages db channel since limit).1.length ≤ limit) ∧
    ((Db.query_messages db channel since limit).1.Pairwise
        (fun a b => b.timestamp ≤ a.timestamp)) ∧
    (∀ r ∈ (Db.query_messages db channel since limit).1,
        r ∈ db.chat_messages ∧
        (∀ c, channel = some c → c ≠ "" → r.channel = c) ∧
        (∀ s, since = some s → s ≤ r.timestamp)) := by
  refine ⟨rfl, ?_, ?_, ?_⟩
  · exact List.length_take_le limit _
  · exact List.Pairwise.sublist (List.take_sublist limit _)
      (Db.pairwise_sort_desc _)
  · intro r hr
    have hr1 : r ∈ Db.sort_desc
        (db.chat_messages.filter (Db.chat_where channel since)) :=
      List.mem_of_mem_take hr
    have hr2 := (Db.mem_sort_desc r _).mp hr1
    have hr3 := List.mem_filter.mp hr2
    have hw : Db.chat_where channel since r = true := hr3.2
    rw [Db.chat_where.eq_def] at hw
    rw [Bool.and_eq_true] at hw
    refine ⟨hr3.1, ?_, ?_⟩
    · intro c hc hne
      have hwc := hw.1
      rw [hc] at hwc
      simp only [hne, if_false, reduceIte] at hwc
      exact eq_of_beq hwc
    · intro s hs
      have hws := hw.2
      rw [hs] at hws
      exact of_decide_eq_true hws

/-- Witness for C9 at a concrete input: querying a two-row table with
channel filter "general" and since 3 returns the matching row, whose
channel the theorem pins to "general". -/
theorem C9_query_messages_filters_witness :
    (Db.ChatRow.mk 1 "general" "alice" "hi" 5 none).channel = "general" :=
  (((C9_query_messages_filters
      ⟨[⟨1, "general", "alice", "hi", 5, none⟩,
        ⟨2, "biotech", "bob", "yo", 9, none⟩], []⟩
      (some "general") (some 3) 10).2.2.2
    ⟨1, "general", "alice", "hi", 5, none⟩ (by decide)).2.1
    "general" rfl (by decide))

namespace ChatMonitorV2

theorem process_frame_seen (st : MonitorState)
    (channels : Option (List String)) (db : Db.SQLiteBackend) (msg : Msg)
    (now : Nat) (h : msg_key msg ∈ st.seen_message_ids) :
    process_frame st channels db (some msg) now = (st, db) := by
  simp only [process_frame]
  rw [if_pos h]

theorem process_frame_adds_key (st : MonitorState)
    (channels : Option (List String)) (db : Db.SQLiteBackend) (msg : Msg)
    (now : Nat) :
    msg_key msg ∈
      (process_frame st channels db (some msg) now).1.seen_message_ids := by
  simp only [process_frame]
  by_cases h : msg_key msg ∈ st.seen_message_ids
  · rw [if_pos h]
    exact h
  · rw [if_neg h]
    split
    · exact List.mem_cons_self _ _
    · exact List.mem_cons_self _ _

end ChatMonitorV2

/-- Counterexample to C2 as stated: `SQLiteBackend.save_message` carries no
deduplication (SCHEMA_SQL has no UNIQUE constraint and the INSERT is
unconditional), so saving the same chat message (same channel, sender and
content) twice stores a second copy: starting from the empty database, two
identical saves leave two matching rows, where the claim requires the second
save to store nothing. -/
theorem C2_storage_dedup_counterexample :
    ((Db.save_message
        (Db.save_message Db.emptyBackend "general" "alice" "hello" none 0
            none).2
        "general" "alice" "hello" none 1 none).2).chat_messages.countP
      (fun r => r.channel == "general" && r.sender == "alice" &&
        r.content == "hello") = 2 := by
  decide

/-- C2 amended: every storage operation of `SQLiteBackend` only inserts new
rows or reads — `save_message` and `save_pdf_record` append exactly one row
and touch nothing else, the two query methods leave the database unchanged —
but deduplication is not done by the storage layer: it lives in the caller,
`ChatMonitorV2._process_frame`, which skips any frame whose message key (the
message id, or sender plus the first 50 content characters) has been seen,
so processing a frame adds at most one row and processing the same extracted
message a second time changes nothing. -/
theorem C2_storage_append_only_monitor_dedup :
    (∀ db channel sender content timestamp now raw_data,
      ∃ row,
        (Db.save_message db channel sender content timestamp now
            raw_data).2.chat_messages = db.chat_messages ++ [row] ∧
        (Db.save_message db channel sender content timestamp now
            raw_data).2.pdf_downloads = db.pdf_downloads) ∧
    (∀ db ticker command filename filepath now,
      ∃ row,
        (Db.save_pdf_record db ticker command filename filepath
            now).2.pdf_downloads = db.pdf_downloads ++ [row] ∧
        (Db.save_pdf_record db ticker command filename filepath
            now).2.chat_messages = db.chat_messages) ∧
    (∀ db channel since limit,
      (Db.query_messages db channel since limit).2 = db) ∧
    (∀ db ticker limit, (Db.query_pdfs db ticker limit).2 = db) ∧
    (∀ st channels db parsed now,
      ∃ added,
        (ChatMonitorV2.process_frame st channels db parsed
            now).2.chat_messages = db.chat_messages ++ added ∧
        added.length ≤ 1) ∧
    (∀ st channels db msg now now',
      ChatMonitorV2.process_frame
        (ChatMonitorV2.process_frame st channels db (some msg) now).1
        channels
        (ChatMonitorV2.process_frame st channels db (some msg) now).2
        (some msg) now' =
      ChatMonitorV2.process_frame st channels db (some msg) now) := by
  refine ⟨?_, ?_, ?_, ?_, ?_, ?_⟩
  · intro db channel sender content timestamp now raw_data
    exact ⟨_, rfl, rfl⟩
  · intro db ticker command filename filepath now
    exact ⟨_, rfl, rfl⟩
  · intro db channel since limit
    rfl
  · intro db ticker limit
    cases ticker <;> rfl
  · intro st channels db parsed now
    cases parsed with
    | none => exact ⟨[], by simp [ChatMonitorV2.process_frame], by simp⟩
    | some msg =>
        simp only [ChatMonitorV2.process_frame]
        by_cases hseen : ChatMonitorV2.msg_key msg ∈ st.seen_message_ids
        · rw [if_pos hseen]
          exact ⟨[], by simp, by simp⟩
        · rw [if_neg hseen]
          split
          · exact ⟨[], by simp, by simp⟩
          · exact ⟨_, rfl, by simp⟩
  · intro st channels db msg now now'
    exact ChatMonitorV2.process_frame_seen _ channels _ msg now'
      (ChatMonitorV2.process_frame_adds_key st channels db msg now)

namespace MultiChat

theorem create_login_fold (channels : List String)
    (username password : String) :
    ∀ (mgr : GodelManager) (sessions : List (String × GodelSession)),
      channels.foldl
        (fun acc channel =>
          create_and_login_session acc.1 acc.2 channel username password)
        (mgr, sessions) =
      (⟨mgr.started, mgr.next_context + channels.length⟩,
       sessions ++ expected_sessions mgr.next_context channels) := by
  induction channels with
  | nil =>
      intro mgr sessions
      simp [expected_sessions]
  | cons ch rest ih =>
      intro mgr sessions
      rw [List.foldl_cons]
      rw [show create_and_login_session mgr sessions ch username password =
          ({ mgr with next_context := mgr.next_context + 1 },
           sessions ++ [(ch, expected_session mgr.next_context ch)])
        from rfl]
      rw [ih]
      rw [expected_sessions]
      refine Prod.ext ?_ ?_
      · simp only []
        congr 1
        simp [List.length_cons]
        omega
      · simp [List.append_assoc]

theorem expected_sessions_context_le (channels : List String) :
    ∀ n p, p ∈ expected_sessions n channels → n ≤ p.2.context_id := by
  induction channels with
  | nil =>
      intro n p hp
      simp [expected_sessions] at hp
  | cons ch rest ih =>
      intro n p hp
      rw [expected_sessions] at hp
      rcases List.mem_cons.mp hp with rfl | hrest
      · exact Nat.le_refl n
      · exact Nat.le_of_succ_le (ih (n + 1) p hrest)

theorem expected_sessions_context_pairwise (channels : List String) :
    ∀ n, (expected_sessions n channels).Pairwise
      (fun p q => p.2.context_id ≠ q.2.context_id) := by
  induction channels with
  | nil =>
      intro n
      simp [expected_sessions]
  | cons ch rest ih =>
      intro n
      rw [expected_sessions]
      refine List.pairwise_cons.mpr ⟨?_, ih (n + 1)⟩
      intro q hq
      have hle := expected_sessions_context_le rest (n + 1) q hq
      simp only [expected_session]
      omega

theorem expected_sessions_map_fst (channels : List String) :
    ∀ n, (expected_sessions n channels).map Prod.fst = channels := by
  induction channels with
  | nil =>
      intro n
      simp [expected_sessions]
  | cons ch rest ih =>
      intro n
      simp [expected_sessions, ih (n + 1)]

theorem expected_sessions_mem (channels : List String) :
    ∀ n p, p ∈ expected_sessions n channels →
      p.2.session_id = "chat_" ++ p.1 ∧ p.2.page_ready = true ∧
      p.2.logged_in = true ∧ p.2.layout = some "dev" := by
  induction channels with
  | nil =>
      intro n p hp
      simp [expected_sessions] at hp
  | cons ch rest ih =>
      intro n p hp
      rw [expected_sessions] at hp
      rcases List.mem_cons.mp hp with rfl | hrest
      · exact ⟨rfl, rfl, rfl, rfl⟩
      · exact ih (n + 1) p hrest

end MultiChat

/-- C4: the session-setup phase of `WorkingMultiChat.run` starts the one
manager-owned browser, and produces via `create_session` one `GodelSession`
per channel, named `chat_<channel>`, each with its page open, independently
logged in, with the "dev" layout loaded, and all in pairwise distinct
isolated browser contexts, ready for the concurrent per-channel monitors. -/
theorem C4_session_manager_layer (channels : List String)
    (username password : String) :
    ((MultiChat.run_setup channels username password).1.started = true) ∧
    ((MultiChat.run_setup channels username password).2.map Prod.fst =
      channels) ∧
    (∀ p ∈ (MultiChat.run_setup channels username password).2,
        p.2.session_id = "chat_" ++ p.1 ∧ p.2.page_ready = true ∧
        p.2.logged_in = true ∧ p.2.layout = some "dev") ∧
    ((MultiChat.run_setup channels username password).2.Pairwise
        (fun p q => p.2.context_id ≠ q.2.context_id)) := by
  have h : MultiChat.run_setup channels username password =
      (⟨true, 0 + channels.length⟩,
       [] ++ MultiChat.expected_sessions 0 channels) :=
    MultiChat.create_login_fold channels username password ⟨true, 0⟩ []
  rw [h]
  refine ⟨rfl, ?_, ?_, ?_⟩
  · simpa using MultiChat.expected_sessions_map_fst channels 0
  · intro p hp
    exact MultiChat.expected_sessions_mem channels 0 p (by simpa using hp)
  · simpa using MultiChat.expected_sessions_context_pairwise channels 0

/-- Witness for C4 at a concrete input: for the single channel "general",
the produced session is named by prefixing "chat_" to its channel. -/
theorem C4_session_manager_layer_witness :
    (MultiChat.GodelSession.mk "chat_general" 0 true true
        (some "dev")).session_id = "chat_" ++ "general" :=
  ((C4_session_manager_layer ["general"] "user" "pw").2.2.1
    ("general", MultiChat.GodelSession.mk "chat_general" 0 true true
      (some "dev")) (by decide)).1

/-- C7: `ProbeCommand.execute` attaches the session interceptor (creating
one when absent), captures for the configured duration, stops the
interceptor (it is no longer recording afterwards), and returns a summary
with `success = true` whose request, response and WebSocket-frame counts
equal the lengths of the corresponding captured lists in its data field. -/
theorem C7_probe_execute_summary
    (session_interceptor : Option Probe.NetworkInterceptor) (duration : Nat)
    (filter_type url_filter : Option String)
    (events : List Probe.NetEvent) :
    ((Probe.probe_execute session_interceptor duration filter_type
        url_filter events).1.success = true) ∧
    ((Probe.probe_execute session_interceptor duration filter_type
        url_filter events).1.counts_requests =
      (Probe.probe_execute session_interceptor duration filter_type
          url_filter events).1.data.requests.length) ∧
    ((Probe.probe_execute session_interceptor duration filter_type
        url_filter events).1.counts_responses =
      (Probe.probe_execute session_interceptor duration filter_type
          url_filter events).1.data.responses.length) ∧
    ((Probe.probe_execute session_interceptor duration filter_type
        url_filter events).1.counts_websocket_frames =
      (Probe.probe_execute session_interceptor duration filter_type
          url_filter events).1.data.websocket_frames.length) ∧
    ((Probe.probe_execute session_interceptor duration filter_type
        url_filter events).1.duration_seconds = duration) ∧
    ((Probe.probe_execute session_interceptor duration filter_type
        url_filter events).2.active = false) :=
  ⟨rfl, rfl, rfl, rfl, rfl, rfl⟩

/-- C10: every data method of the `GodelAPI` wrapper (des, prt, most, g,
gip, qm) raises RuntimeError ("Not connected. Call connect() first.") and
leaves the wrapper state — hence any browser state it holds — untouched
whenever the wrapper is not connected or holds no controller; a fresh
wrapper is in that state, a failed `connect` keeps it there, and after
`disconnect` the state again satisfies it. -/
theorem C10_api_methods_require_connection :
    (∀ (api : GodelApi.GodelAPI) result ticker asset_class,
      (api.connected = false ∨ api.controller = none) →
      GodelApi.des api result ticker asset_class =
        (Except.error GodelApi.not_connected_msg, api)) ∧
    (∀ (api : GodelApi.GodelAPI) result tickers output_path,
      (api.connected = false ∨ api.controller = none) →
      GodelApi.prt api result tickers output_path =
        (Except.error GodelApi.not_connected_msg, api)) ∧
    (∀ (api : GodelApi.GodelAPI) result tab limit output_path,
      (api.connected = false ∨ api.controller = none) →
      GodelApi.most api result tab limit output_path =
        (Except.error GodelApi.not_connected_msg, api)) ∧
    (∀ (api : GodelApi.GodelAPI) result ticker asset_class,
      (api.connected = false ∨ api.controller = none) →
      GodelApi.g api result ticker asset_class =
        (Except.error GodelApi.not_connected_msg, api)) ∧
    (∀ (api : GodelApi.GodelAPI) result ticker asset_class,
      (api.connected = false ∨ api.controller = none) →
      GodelApi.gip api result ticker asset_class =
        (Except.error GodelApi.not_connected_msg, api)) ∧
    (∀ (api : GodelApi.GodelAPI) result ticker asset_class,
      (api.connected = false ∨ api.controller = none) →
      GodelApi.qm api result ticker asset_class =
        (Except.error GodelApi.not_connected_msg, api)) ∧
    (GodelApi.init.connected = false ∧ GodelApi.init.controller = none) ∧
    (∀ (api : GodelApi.GodelAPI) ctrl, api.connected = false →
      (GodelApi.connect api false ctrl).2.connected = false) ∧
    (∀ (api : GodelApi.GodelAPI),
      (GodelApi.disconnect api).connected = false ∨
      (GodelApi.disconnect api).controller = none) := by
  have hens : ∀ (api : GodelApi.GodelAPI),
      (api.connected = false ∨ api.controller = none) →
      GodelApi.ensure_connected api =
        Except.error GodelApi.not_connected_msg := by
    intro api h
    rw [GodelApi.ensure_connected, if_pos h]
  refine ⟨?_, ?_, ?_, ?_, ?_, ?_, ⟨rfl, rfl⟩, ?_, ?_⟩
  · intro api result ticker asset_class h
    simp only [GodelApi.des, hens api h]
  · intro api result tickers output_path h
    simp only [GodelApi.prt, hens api h]
  · intro api result tab limit output_path h
    simp only [GodelApi.most, hens api h]
  · intro api result ticker asset_class h
    simp only [GodelApi.g, hens api h]
  · intro api result ticker asset_class h
    simp only [GodelApi.gip, hens api h]
  · intro api result ticker asset_class h
    simp only [GodelApi.qm, hens api h]
  · intro api ctrl h
    simp only [GodelApi.connect, Bool.false_eq_true, if_false, reduceIte]
    exact h
  · intro api
    cases hc : api.controller with
    | none =>
        rw [GodelApi.disconnect]
        rw [hc]
        exact Or.inr hc
    | some c =>
        rw [GodelApi.disconnect]
        rw [hc]
        exact Or.inl rfl

/-- Witness for C10 at a concrete input: calling `des` on a fresh,
never-connected wrapper returns the RuntimeError and leaves the state
unchanged. -/
theorem C10_api_methods_require_connection_witness :
    GodelApi.des GodelApi.init ⟨false, none, "", none, none⟩ "AAPL" "EQ" =
      (Except.error GodelApi.not_connected_msg, GodelApi.init) :=
  C10_api_methods_require_connection.1 GodelApi.init
    ⟨false, none, "", none, none⟩ "AAPL" "EQ" (Or.inl rfl)
